import Mathlib

/-!
Verification of the DartConnect stats generator core: notation parsing,
Quality-Point scoring ladders, leg grouping, rating, cache and fetch logic,
shallowly embedded from the Python source.
-/

namespace DartConnect

/-! ### Character/string helpers mirroring Python str operations -/

/-- Python whitespace characters recognised by str.strip(). -/
def isPySpace (c : Char) : Bool :=
  c == ' ' || c == '\t' || c == '\n' || c == '\r' || c == '\x0b' || c == '\x0c'

/-- Python str.strip(): drop leading and trailing whitespace. -/
def pyStrip (l : List Char) : List Char :=
  ((l.dropWhile isPySpace).reverse.dropWhile isPySpace).reverse

/-- Helper for pySplit, accumulating the current chunk in reverse. -/
def pySplitAux (sep : Char) : List Char → List Char → List (List Char)
  | [], acc => [acc.reverse]
  | c :: cs, acc =>
    if c == sep then acc.reverse :: pySplitAux sep cs []
    else pySplitAux sep cs (c :: acc)

/-- Python str.split(sep) for a single-character separator. -/
def pySplit (sep : Char) (l : List Char) : List (List Char) :=
  pySplitAux sep l []

/-- Whether the first list is an initial segment of the second. -/
def listStartsWith : List Char → List Char → Bool
  | [], _ => true
  | _ :: _, [] => false
  | p :: ps, c :: cs => p == c && listStartsWith ps cs

/-- Python substring containment (`pat in s`). -/
def listContainsSeq (pat : List Char) : List Char → Bool
  | [] => pat.isEmpty
  | c :: cs => listStartsWith pat (c :: cs) || listContainsSeq pat cs

/-- Value of a digit string (caller checks all chars are digits). -/
def digitsVal (cs : List Char) : Nat :=
  cs.foldl (fun a c => a * 10 + (c.toNat - 48)) 0

/-- Parse a nonempty all-ASCII-digit string as a Nat, else none. -/
def pyIntOfDigits (cs : List Char) : Option Int :=
  if cs.isEmpty then none
  else if cs.all Char.isDigit then some (digitsVal cs) else none

/-- Python int(str): strips whitespace, optional sign, decimal digits.
(Underscore digit grouping and non-ASCII digits are not modelled; no
claim exercises them.) -/
def pyInt (l : List Char) : Option Int :=
  match pyStrip l with
  | '+' :: rest => pyIntOfDigits rest
  | '-' :: rest => (pyIntOfDigits rest).map (fun n => -n)
  | rest => pyIntOfDigits rest

/-! ### NotationParser: url_fetcher.py `_parse_cricket_turn` -/

/-- The xN multiplier of a dart token: Python takes the segment after the
first `x` (if any) and int()s it, keeping 1 on ValueError/IndexError. -/
def dartMultiplier (dart : List Char) : Int :=
  if dart.contains 'x' then
    match (pySplit 'x' dart).get? 1 with
    | some part => (pyInt part).getD 1
    | none => 1
  else 1

/-- The six cricket-number substrings checked by the parser. -/
def cricketNumberStrings : List (List Char) :=
  [['1', '5'], ['1', '6'], ['1', '7'], ['1', '8'], ['1', '9'], ['2', '0']]

/-- (marks, bulls) contributed by one stripped dart token, exactly as the
branch ladder in `_parse_cricket_turn`. -/
def dartContribution (dart : List Char) : Int × Int :=
  let m := dartMultiplier dart
  if listStartsWith ['S', 'B'] dart then (0, 1 * m)
  else if listStartsWith ['D', 'B'] dart then (0, 2 * m)
  else if listStartsWith ['B'] dart then (0, 1 * m)
  else if cricketNumberStrings.any (fun p => listContainsSeq p dart) then
    if listStartsWith ['T'] dart then (3 * m, 0)
    else if listStartsWith ['D'] dart then (2 * m, 0)
    else if listStartsWith ['S'] dart then (1 * m, 0)
    else (0, 0)
  else (0, 0)

/-- `_parse_cricket_turn`: split on commas, strip each token, sum the
(marks, bulls) contributions; empty input gives (0, 0). -/
def _parse_cricket_turn (turn_score : String) : Int × Int :=
  if turn_score = "" then (0, 0)
  else
    let darts := (pySplit ',' turn_score.toList).map pyStrip
    darts.foldl
      (fun acc d =>
        let c := dartContribution d
        (acc.1 + c.1, acc.2 + c.2))
      (0, 0)

/-! ### QPScorer: url_fetcher.py `_calculate_turn_qp` and `calculate_501_qp` -/

/-- `_calculate_turn_qp`: Cricket per-turn QP ladder, highest level first. -/
def _calculate_turn_qp (marks bulls : Int) : Nat :=
  if marks ≥ 9 ∨ bulls ≥ 6 ∨ (marks ≥ 3 ∧ bulls ≥ 4) ∨ (marks ≥ 6 ∧ bulls ≥ 2) then 5
  else if marks ≥ 8 ∨ bulls ≥ 5 ∨ (marks ≥ 2 ∧ bulls ≥ 4) ∨ (marks ≥ 3 ∧ bulls ≥ 3)
      ∨ (marks ≥ 5 ∧ bulls ≥ 2) ∨ (marks ≥ 6 ∧ bulls ≥ 1) then 4
  else if marks ≥ 7 ∨ bulls ≥ 4 ∨ (marks ≥ 1 ∧ bulls ≥ 4) ∨ (marks ≥ 2 ∧ bulls ≥ 3)
      ∨ (marks ≥ 4 ∧ bulls ≥ 2) ∨ (marks ≥ 5 ∧ bulls ≥ 1) then 3
  else if marks ≥ 6 ∨ bulls ≥ 3 ∨ (marks ≥ 1 ∧ bulls ≥ 3) ∨ (marks ≥ 3 ∧ bulls ≥ 2)
      ∨ (marks ≥ 4 ∧ bulls ≥ 1) then 2
  else if marks ≥ 5 ∨ (marks ≥ 3 ∧ bulls ≥ 1) ∨ (marks ≥ 2 ∧ bulls ≥ 2) then 1
  else 0

/-- The spec's Cricket threshold ladder (§4.4), transcribed from the spec's
own lines, evaluated highest level first, first match wins. -/
def cricketLadderSpec (m b : Int) : Nat :=
  if m ≥ 9 ∨ b ≥ 6 ∨ (m ≥ 3 ∧ b ≥ 4) ∨ (m ≥ 6 ∧ b ≥ 2) then 5
  else if m ≥ 8 ∨ b ≥ 5 ∨ (m ≥ 2 ∧ b ≥ 4) ∨ (m ≥ 3 ∧ b ≥ 3)
      ∨ (m ≥ 5 ∧ b ≥ 2) ∨ (m ≥ 6 ∧ b ≥ 1) then 4
  else if m ≥ 7 ∨ b ≥ 4 ∨ (m ≥ 1 ∧ b ≥ 4) ∨ (m ≥ 2 ∧ b ≥ 3)
      ∨ (m ≥ 4 ∧ b ≥ 2) ∨ (m ≥ 5 ∧ b ≥ 1) then 3
  else if m ≥ 6 ∨ b ≥ 3 ∨ (m ≥ 1 ∧ b ≥ 3) ∨ (m ≥ 3 ∧ b ≥ 2)
      ∨ (m ≥ 4 ∧ b ≥ 1) then 2
  else if m ≥ 5 ∨ (m ≥ 3 ∧ b ≥ 1) ∨ (m ≥ 2 ∧ b ≥ 2) then 1
  else 0

/-- The `QPs from total score column` block of `calculate_501_qp`. -/
def total501Points (total_score : Int) : Nat :=
  if 164 ≤ total_score ∧ total_score ≤ 180 then 5
  else if 148 ≤ total_score ∧ total_score ≤ 163 then 4
  else if 132 ≤ total_score ∧ total_score ≤ 147 then 3
  else if 116 ≤ total_score ∧ total_score ≤ 131 then 2
  else if 95 ≤ total_score ∧ total_score ≤ 115 then 1
  else 0

/-- The `QPs from checkout score column (if available)` block of
`calculate_501_qp`. -/
def checkout501Points : Option Int → Nat
  | none => 0
  | some c =>
    if 151 ≤ c ∧ c ≤ 170 then 5
    else if 129 ≤ c ∧ c ≤ 150 then 4
    else if 107 ≤ c ∧ c ≤ 128 then 3
    else if 85 ≤ c ∧ c ≤ 106 then 2
    else if 61 ≤ c ∧ c ≤ 84 then 1
    else 0

/-- `calculate_501_qp`: additive 501 QP, a bracket ladder on the total
(high-turn) score plus a bracket ladder on the optional checkout score. -/
def calculate_501_qp (total_score : Int) (checkout_score : Option Int) : Nat :=
  total501Points total_score + checkout501Points checkout_score

/-- The spec's 501 total-score bracket ladder (§4.4), written in the spec's
order `1:[95,115] 2:[116,131] 3:[132,147] 4:[148,163] 5:[164,180]`. -/
def spec501TotalPoints (s : Int) : Nat :=
  if 95 ≤ s ∧ s ≤ 115 then 1
  else if 116 ≤ s ∧ s ≤ 131 then 2
  else if 132 ≤ s ∧ s ≤ 147 then 3
  else if 148 ≤ s ∧ s ≤ 163 then 4
  else if 164 ≤ s ∧ s ≤ 180 then 5
  else 0

/-- The spec's 501 checkout bracket ladder (§4.4), written in the spec's
order `1:[61,84] 2:[85,106] 3:[107,128] 4:[129,150] 5:[151,170]`;
0 when the checkout score is absent. -/
def spec501CheckoutPoints (c : Option Int) : Nat :=
  match c with
  | none => 0
  | some s =>
    if 61 ≤ s ∧ s ≤ 84 then 1
    else if 85 ≤ s ∧ s ≤ 106 then 2
    else if 107 ≤ s ∧ s ≤ 128 then 3
    else if 129 ≤ s ∧ s ≤ 150 then 4
    else if 151 ≤ s ∧ s ≤ 170 then 5
    else 0

/-! ### StatsAggregator: data_processor.py -/

/-- One row of the per-player dataframe: game type, play format, match
report URL, set number, leg outcome ("W"/"L"), and the 501 CSV columns
`Hi Turn` and `DO` (none models NaN or an unconvertible value). -/
structure LegRow where
  game_name : String
  pf : String
  report_url : String
  set_num : Nat
  win : String
  hi_turn : Option ℚ
  do_score : Option ℚ
deriving DecidableEq

/-- `(set_data['win'] == 'W').sum()`: legs won within a group of rows. -/
def legsWonIn (rows : List LegRow) : Nat :=
  (rows.filter (fun r => r.win == "W")).length

/-- `(set_data['win'] == 'L').sum()`: legs lost within a group of rows. -/
def legsLostIn (rows : List LegRow) : Nat :=
  (rows.filter (fun r => r.win == "L")).length

/-- A group's contribution to the wins counter in
`_calculate_game_specific_stats`: 1 when strictly more legs won. -/
def gameWinContribution (g : List LegRow) : Nat :=
  if legsWonIn g > legsLostIn g then 1 else 0

/-- A group's contribution to the losses counter: 1 when strictly more
legs lost. -/
def gameLossContribution (g : List LegRow) : Nat :=
  if legsLostIn g > legsWonIn g then 1 else 0

/-- The rows of one (game type, play format) slice of the player's frame. -/
def filteredRows (rows : List LegRow) (gt pf : String) : List LegRow :=
  rows.filter (fun r => r.game_name == gt && r.pf == pf)

/-- The distinct (report_url, Set #) grouping keys of a frame, as in
`groupby(['report_url', 'Set #'])` (key order is irrelevant to the sums). -/
def gameKeys (rows : List LegRow) : List (String × Nat) :=
  (rows.map (fun r => (r.report_url, r.set_num))).dedup

/-- The rows belonging to one grouping key. -/
def rowsForKey (rows : List LegRow) (k : String × Nat) : List LegRow :=
  rows.filter (fun r => r.report_url == k.1 && r.set_num == k.2)

/-- Wins counted for one (game type, play format) slice: one per grouped
game whose legs-won strictly exceed legs-lost. -/
def disciplineWins (rows : List LegRow) (gt pf : String) : Nat :=
  ((gameKeys (filteredRows rows gt pf)).map
    (fun k => gameWinContribution (rowsForKey (filteredRows rows gt pf) k))).sum

/-- Losses counted for one (game type, play format) slice. -/
def disciplineLosses (rows : List LegRow) (gt pf : String) : Nat :=
  ((gameKeys (filteredRows rows gt pf)).map
    (fun k => gameLossContribution (rowsForKey (filteredRows rows gt pf) k))).sum

/-- The rating computed in `_calculate_player_stats`: the formula is only
evaluated when `games_played > 0`, otherwise the rating is 0 (the code
emits the literal string "0.0000"); Python float division is modelled by
exact rational division. -/
def playerRating (total_wins games_played qps legs_played : Nat) : ℚ :=
  if 0 < games_played then
    ((total_wins : ℚ) * 2) / (games_played : ℚ) + (qps : ℚ) / (legs_played : ℚ)
  else 0

/-- The spec's rating formula (§4.5): two terms, each 0 exactly when its
own denominator is 0. -/
def ratingSpecFormula (total_wins games_played qps legs_played : Nat) : ℚ :=
  (if games_played = 0 then 0 else ((total_wins : ℚ) * 2) / (games_played : ℚ)) +
  (if legs_played = 0 then 0 else (qps : ℚ) / (legs_played : ℚ))

/-- `Hi Turn` bracket ladder of `_calculate_501_qps_from_csv` (the CSV value
is converted with float(); modelled as an exact rational). -/
def csvHiTurnQP (h : ℚ) : Nat :=
  if 164 ≤ h ∧ h ≤ 180 then 5
  else if 148 ≤ h ∧ h ≤ 163 then 4
  else if 132 ≤ h ∧ h ≤ 147 then 3
  else if 116 ≤ h ∧ h ≤ 131 then 2
  else if 95 ≤ h ∧ h ≤ 115 then 1
  else 0

/-- `DO` (checkout) bracket ladder of `_calculate_501_qps_from_csv`. -/
def csvCheckoutQP (d : ℚ) : Nat :=
  if 151 ≤ d ∧ d ≤ 170 then 5
  else if 129 ≤ d ∧ d ≤ 150 then 4
  else if 107 ≤ d ∧ d ≤ 128 then 3
  else if 85 ≤ d ∧ d ≤ 106 then 2
  else if 61 ≤ d ∧ d ≤ 84 then 1
  else 0

/-- One row's leg QP in `_calculate_501_qps_from_csv`: each component is 0
when its value is NaN or unconvertible (modelled by none). -/
def csvLegQP (row : LegRow) : Nat :=
  (row.hi_turn.map csvHiTurnQP).getD 0 + (row.do_score.map csvCheckoutQP).getD 0

/-- `_calculate_501_qps_from_csv`: sum the per-leg QPs over the rows whose
game is '501 SIDO'. -/
def _calculate_501_qps_from_csv (rows : List LegRow) : Nat :=
  ((rows.filter (fun r => r.game_name == "501 SIDO")).map csvLegQP).sum

/-! ### CacheStore: url_fetcher.py `_cache_data` / `_get_cached_data`

The on-disk store is modelled as an association list from cache key to
(mtime, data), together with the session counters of `cache_stats`.
Times are rationals measured in days, matching the day-granularity TTL
comparison `file_age > timedelta(days=cache_expiry_days)`. -/

structure CacheState (δ : Type) where
  entries : List (String × ℚ × δ)
  hits : Nat
  misses : Nat
  expired : Nat
  new_fetches : Nat

/-- Look up the stored (mtime, data) for a cache key. -/
def lookupEntry {δ : Type} (entries : List (String × ℚ × δ)) (k : String) :
    Option (ℚ × δ) :=
  (entries.find? (fun e => e.1 == k)).map (fun e => e.2)

/-- `_cache_data`: write (overwrite) the entry for a key; the file mtime
becomes the current time. -/
def _cache_data {δ : Type} (s : CacheState δ) (k : String) (d : δ) (now : ℚ) :
    CacheState δ :=
  { s with entries := (k, now, d) :: s.entries.filter (fun e => e.1 != k) }

/-- `_get_cached_data`: miss when absent; when present but older than the
TTL, delete the file, count one `expired`, and miss; otherwise return the
stored data unchanged. -/
def _get_cached_data {δ : Type} (s : CacheState δ) (k : String) (now ttl : ℚ) :
    Option δ × CacheState δ :=
  match lookupEntry s.entries k with
  | none => (none, s)
  | some td =>
    if ttl < now - td.1 then
      (none, { s with entries := s.entries.filter (fun e => e.1 != k),
                      expired := s.expired + 1 })
    else (some td.2, s)

/-! ### DetailFetcher: url_fetcher.py `fetch_game_data` /
`_is_valid_dartconnect_url` / `_extract_game_data_from_html` -/

/-- The result of urlparse on the locator, with the raw locator kept for
cache-key derivation. -/
structure UrlParts where
  raw : String
  netloc : String
  path : String

/-- `_is_valid_dartconnect_url`: recap.dartconnect.com with a
`/games/...` path of at least 3 slash-separated parts, or a
`/history/report/match/...` path of at least 5 parts. -/
def _is_valid_dartconnect_url (u : UrlParts) : Bool :=
  u.netloc == "recap.dartconnect.com" &&
    ((listStartsWith "/games/".toList u.path.toList &&
        Nat.ble 3 (pySplit '/' u.path.toList).length) ||
     (listStartsWith "/history/report/match/".toList u.path.toList &&
        Nat.ble 5 (pySplit '/' u.path.toList).length))

/-- `_extract_game_data_from_html`: find the data-page attribute (regex
search, abstracted as findDataPage), HTML-unescape it, JSON-parse it
(abstracted as parseJson, none on JSONDecodeError or a non-object
document), then take its `props` field; none at any failed step. -/
def _extract_game_data_from_html {δ : Type} (findDataPage : String → Option String)
    (unescape : String → String) (parseJson : String → Option (List (String × δ)))
    (html_content : String) : Option δ :=
  match findDataPage html_content with
  | none => none
  | some raw =>
    match parseJson (unescape raw) with
    | none => none
    | some obj => (obj.find? (fun p => p.1 == "props")).map (fun p => p.2)

/-- `fetch_game_data`: validate the locator (else return None untouched),
try the cache (hit counts `hits`), else count a miss, perform the HTTP GET
(none models a transport failure), extract the payload, and only on
success cache it and count a `new_fetches`. The cache filename derivation
`_get_cache_filename` (match-id extraction with an md5 fallback) is
abstracted as keyFn. -/
def fetch_game_data {δ : Type} (keyFn : String → String)
    (findDataPage : String → Option String) (unescape : String → String)
    (parseJson : String → Option (List (String × δ)))
    (u : UrlParts) (response : Option String) (now ttl : ℚ)
    (st : CacheState δ) : Option δ × CacheState δ :=
  if _is_valid_dartconnect_url u then
    match _get_cached_data st (keyFn u.raw) now ttl with
    | (some d, st1) => (some d, { st1 with hits := st1.hits + 1 })
    | (none, st1) =>
      let st2 := { st1 with misses := st1.misses + 1 }
      match response with
      | none => (none, st2)
      | some htmlText =>
        match _extract_game_data_from_html findDataPage unescape parseJson htmlText with
        | none => (none, st2)
        | some d =>
          (some d,
           { _cache_data st2 (keyFn u.raw) d now with
               new_fetches := st2.new_fetches + 1 })
  else (none, st)

/-! ## Theorems -/

/-- C1: for all non-negative marks and bulls the Cricket per-turn scorer
`_calculate_turn_qp` returns the level of the spec's threshold ladder
evaluated highest level first, and in particular the five worked examples
(9,0)↦5, (0,6)↦5, (3,4)↦5, (4,0)↦0, (5,0)↦1 hold. -/
theorem claim_C1 (m b : Int) (hm : 0 ≤ m) (hb : 0 ≤ b) :
    _calculate_turn_qp m b = cricketLadderSpec m b ∧
    _calculate_turn_qp 9 0 = 5 ∧ _calculate_turn_qp 0 6 = 5 ∧
    _calculate_turn_qp 3 4 = 5 ∧ _calculate_turn_qp 4 0 = 0 ∧
    _calculate_turn_qp 5 0 = 1 :=
  ⟨rfl, by decide, by decide, by decide, by decide, by decide⟩

/-- Witness for C1 at marks 9, bulls 0. -/
theorem claim_C1_witness :
    _calculate_turn_qp 9 0 = cricketLadderSpec 9 0 ∧
    _calculate_turn_qp 9 0 = 5 ∧ _calculate_turn_qp 0 6 = 5 ∧
    _calculate_turn_qp 3 4 = 5 ∧ _calculate_turn_qp 4 0 = 0 ∧
    _calculate_turn_qp 5 0 = 1 :=
  claim_C1 9 0 (by decide) (by decide)

/-- C2: every 501 leg's QP is the sum of the spec's two independent
bracket ladders on the high-turn score and the optional checkout score,
with leg501(132, some 132) = 7 and leg501(94, none) = 0. -/
theorem claim_C2 (highTurn : Int) (checkout : Option Int) :
    calculate_501_qp highTurn checkout
      = spec501TotalPoints highTurn + spec501CheckoutPoints checkout ∧
    calculate_501_qp 132 (some 132) = 7 ∧
    calculate_501_qp 94 none = 0 := by
  refine ⟨?_, by decide, by decide⟩
  have h1 : total501Points highTurn = spec501TotalPoints highTurn := by
    unfold total501Points spec501TotalPoints
    split_ifs <;> omega
  have h2 : checkout501Points checkout = spec501CheckoutPoints checkout := by
    cases checkout with
    | none => rfl
    | some c =>
      simp only [checkout501Points, spec501CheckoutPoints]
      split_ifs <;> omega
  unfold calculate_501_qp
  rw [h1, h2]

/-- The scorer returns 5 whenever the level-5 condition holds. -/
theorem qp_eq_of_l5 (m b : Int)
    (h5 : m ≥ 9 ∨ b ≥ 6 ∨ (m ≥ 3 ∧ b ≥ 4) ∨ (m ≥ 6 ∧ b ≥ 2)) :
    _calculate_turn_qp m b = 5 := by
  unfold _calculate_turn_qp
  rw [if_pos h5]

/-- The scorer returns 4 on the level-4 condition when level 5 fails. -/
theorem qp_eq_of_l4 (m b : Int)
    (h5 : ¬(m ≥ 9 ∨ b ≥ 6 ∨ (m ≥ 3 ∧ b ≥ 4) ∨ (m ≥ 6 ∧ b ≥ 2)))
    (h4 : m ≥ 8 ∨ b ≥ 5 ∨ (m ≥ 2 ∧ b ≥ 4) ∨ (m ≥ 3 ∧ b ≥ 3)
      ∨ (m ≥ 5 ∧ b ≥ 2) ∨ (m ≥ 6 ∧ b ≥ 1)) :
    _calculate_turn_qp m b = 4 := by
  unfold _calculate_turn_qp
  rw [if_neg h5, if_pos h4]

/-- The scorer returns 3 on the level-3 condition when levels 5-4 fail. -/
theorem qp_eq_of_l3 (m b : Int)
    (h5 : ¬(m ≥ 9 ∨ b ≥ 6 ∨ (m ≥ 3 ∧ b ≥ 4) ∨ (m ≥ 6 ∧ b ≥ 2)))
    (h4 : ¬(m ≥ 8 ∨ b ≥ 5 ∨ (m ≥ 2 ∧ b ≥ 4) ∨ (m ≥ 3 ∧ b ≥ 3)
      ∨ (m ≥ 5 ∧ b ≥ 2) ∨ (m ≥ 6 ∧ b ≥ 1)))
    (h3 : m ≥ 7 ∨ b ≥ 4 ∨ (m ≥ 1 ∧ b ≥ 4) ∨ (m ≥ 2 ∧ b ≥ 3)
      ∨ (m ≥ 4 ∧ b ≥ 2) ∨ (m ≥ 5 ∧ b ≥ 1)) :
    _calculate_turn_qp m b = 3 := by
  unfold _calculate_turn_qp
  rw [if_neg h5, if_neg h4, if_pos h3]

/-- The scorer returns 2 on the level-2 condition when levels 5-3 fail. -/
theorem qp_eq_of_l2 (m b : Int)
    (h5 : ¬(m ≥ 9 ∨ b ≥ 6 ∨ (m ≥ 3 ∧ b ≥ 4) ∨ (m ≥ 6 ∧ b ≥ 2)))
    (h4 : ¬(m ≥ 8 ∨ b ≥ 5 ∨ (m ≥ 2 ∧ b ≥ 4) ∨ (m ≥ 3 ∧ b ≥ 3)
      ∨ (m ≥ 5 ∧ b ≥ 2) ∨ (m ≥ 6 ∧ b ≥ 1)))
    (h3 : ¬(m ≥ 7 ∨ b ≥ 4 ∨ (m ≥ 1 ∧ b ≥ 4) ∨ (m ≥ 2 ∧ b ≥ 3)
      ∨ (m ≥ 4 ∧ b ≥ 2) ∨ (m ≥ 5 ∧ b ≥ 1)))
    (h2 : m ≥ 6 ∨ b ≥ 3 ∨ (m ≥ 1 ∧ b ≥ 3) ∨ (m ≥ 3 ∧ b ≥ 2)
      ∨ (m ≥ 4 ∧ b ≥ 1)) :
    _calculate_turn_qp m b = 2 := by
  unfold _calculate_turn_qp
  rw [if_neg h5, if_neg h4, if_neg h3, if_pos h2]

/-- The scorer returns 1 on the level-1 condition when levels 5-2 fail. -/
theorem qp_eq_of_l1 (m b : Int)
    (h5 : ¬(m ≥ 9 ∨ b ≥ 6 ∨ (m ≥ 3 ∧ b ≥ 4) ∨ (m ≥ 6 ∧ b ≥ 2)))
    (h4 : ¬(m ≥ 8 ∨ b ≥ 5 ∨ (m ≥ 2 ∧ b ≥ 4) ∨ (m ≥ 3 ∧ b ≥ 3)
      ∨ (m ≥ 5 ∧ b ≥ 2) ∨ (m ≥ 6 ∧ b ≥ 1)))
    (h3 : ¬(m ≥ 7 ∨ b ≥ 4 ∨ (m ≥ 1 ∧ b ≥ 4) ∨ (m ≥ 2 ∧ b ≥ 3)
      ∨ (m ≥ 4 ∧ b ≥ 2) ∨ (m ≥ 5 ∧ b ≥ 1)))
    (h2 : ¬(m ≥ 6 ∨ b ≥ 3 ∨ (m ≥ 1 ∧ b ≥ 3) ∨ (m ≥ 3 ∧ b ≥ 2)
      ∨ (m ≥ 4 ∧ b ≥ 1)))
    (h1 : m ≥ 5 ∨ (m ≥ 3 ∧ b ≥ 1) ∨ (m ≥ 2 ∧ b ≥ 2)) :
    _calculate_turn_qp m b = 1 := by
  unfold _calculate_turn_qp
  rw [if_neg h5, if_neg h4, if_neg h3, if_neg h2, if_pos h1]

/-- The scorer returns 0 when every level condition fails. -/
theorem qp_eq_of_l0 (m b : Int)
    (h5 : ¬(m ≥ 9 ∨ b ≥ 6 ∨ (m ≥ 3 ∧ b ≥ 4) ∨ (m ≥ 6 ∧ b ≥ 2)))
    (h4 : ¬(m ≥ 8 ∨ b ≥ 5 ∨ (m ≥ 2 ∧ b ≥ 4) ∨ (m ≥ 3 ∧ b ≥ 3)
      ∨ (m ≥ 5 ∧ b ≥ 2) ∨ (m ≥ 6 ∧ b ≥ 1)))
    (h3 : ¬(m ≥ 7 ∨ b ≥ 4 ∨ (m ≥ 1 ∧ b ≥ 4) ∨ (m ≥ 2 ∧ b ≥ 3)
      ∨ (m ≥ 4 ∧ b ≥ 2) ∨ (m ≥ 5 ∧ b ≥ 1)))
    (h2 : ¬(m ≥ 6 ∨ b ≥ 3 ∨ (m ≥ 1 ∧ b ≥ 3) ∨ (m ≥ 3 ∧ b ≥ 2)
      ∨ (m ≥ 4 ∧ b ≥ 1)))
    (h1 : ¬(m ≥ 5 ∨ (m ≥ 3 ∧ b ≥ 1) ∨ (m ≥ 2 ∧ b ≥ 2))) :
    _calculate_turn_qp m b = 0 := by
  unfold _calculate_turn_qp
  rw [if_neg h5, if_neg h4, if_neg h3, if_neg h2, if_neg h1]

/-- Level 4's condition forces a score of at least 4. -/
theorem qp_ge_of_l4 (m b : Int)
    (h4 : m ≥ 8 ∨ b ≥ 5 ∨ (m ≥ 2 ∧ b ≥ 4) ∨ (m ≥ 3 ∧ b ≥ 3)
      ∨ (m ≥ 5 ∧ b ≥ 2) ∨ (m ≥ 6 ∧ b ≥ 1)) :
    4 ≤ _calculate_turn_qp m b := by
  by_cases h5 : m ≥ 9 ∨ b ≥ 6 ∨ (m ≥ 3 ∧ b ≥ 4) ∨ (m ≥ 6 ∧ b ≥ 2)
  · rw [qp_eq_of_l5 m b h5]; omega
  · rw [qp_eq_of_l4 m b h5 h4]

/-- Level 3's condition forces a score of at least 3. -/
theorem qp_ge_of_l3 (m b : Int)
    (h3 : m ≥ 7 ∨ b ≥ 4 ∨ (m ≥ 1 ∧ b ≥ 4) ∨ (m ≥ 2 ∧ b ≥ 3)
      ∨ (m ≥ 4 ∧ b ≥ 2) ∨ (m ≥ 5 ∧ b ≥ 1)) :
    3 ≤ _calculate_turn_qp m b := by
  by_cases h4 : m ≥ 8 ∨ b ≥ 5 ∨ (m ≥ 2 ∧ b ≥ 4) ∨ (m ≥ 3 ∧ b ≥ 3)
      ∨ (m ≥ 5 ∧ b ≥ 2) ∨ (m ≥ 6 ∧ b ≥ 1)
  · have := qp_ge_of_l4 m b h4; omega
  · by_cases h5 : m ≥ 9 ∨ b ≥ 6 ∨ (m ≥ 3 ∧ b ≥ 4) ∨ (m ≥ 6 ∧ b ≥ 2)
    · rw [qp_eq_of_l5 m b h5]; omega
    · rw [qp_eq_of_l3 m b h5 h4 h3]

/-- Level 2's condition forces a score of at least 2. -/
theorem qp_ge_of_l2 (m b : Int)
    (h2 : m ≥ 6 ∨ b ≥ 3 ∨ (m ≥ 1 ∧ b ≥ 3) ∨ (m ≥ 3 ∧ b ≥ 2)
      ∨ (m ≥ 4 ∧ b ≥ 1)) :
    2 ≤ _calculate_turn_qp m b := by
  by_cases h3 : m ≥ 7 ∨ b ≥ 4 ∨ (m ≥ 1 ∧ b ≥ 4) ∨ (m ≥ 2 ∧ b ≥ 3)
      ∨ (m ≥ 4 ∧ b ≥ 2) ∨ (m ≥ 5 ∧ b ≥ 1)
  · have := qp_ge_of_l3 m b h3; omega
  · by_cases h4 : m ≥ 8 ∨ b ≥ 5 ∨ (m ≥ 2 ∧ b ≥ 4) ∨ (m ≥ 3 ∧ b ≥ 3)
        ∨ (m ≥ 5 ∧ b ≥ 2) ∨ (m ≥ 6 ∧ b ≥ 1)
    · have := qp_ge_of_l4 m b h4; omega
    · by_cases h5 : m ≥ 9 ∨ b ≥ 6 ∨ (m ≥ 3 ∧ b ≥ 4) ∨ (m ≥ 6 ∧ b ≥ 2)
      · rw [qp_eq_of_l5 m b h5]; omega
      · rw [qp_eq_of_l2 m b h5 h4 h3 h2]

/-- Level 1's condition forces a score of at least 1. -/
theorem qp_ge_of_l1 (m b : Int)
    (h1 : m ≥ 5 ∨ (m ≥ 3 ∧ b ≥ 1) ∨ (m ≥ 2 ∧ b ≥ 2)) :
    1 ≤ _calculate_turn_qp m b := by
  by_cases h2 : m ≥ 6 ∨ b ≥ 3 ∨ (m ≥ 1 ∧ b ≥ 3) ∨ (m ≥ 3 ∧ b ≥ 2)
      ∨ (m ≥ 4 ∧ b ≥ 1)
  · have := qp_ge_of_l2 m b h2; omega
  · by_cases h3 : m ≥ 7 ∨ b ≥ 4 ∨ (m ≥ 1 ∧ b ≥ 4) ∨ (m ≥ 2 ∧ b ≥ 3)
        ∨ (m ≥ 4 ∧ b ≥ 2) ∨ (m ≥ 5 ∧ b ≥ 1)
    · have := qp_ge_of_l3 m b h3; omega
    · by_cases h4 : m ≥ 8 ∨ b ≥ 5 ∨ (m ≥ 2 ∧ b ≥ 4) ∨ (m ≥ 3 ∧ b ≥ 3)
          ∨ (m ≥ 5 ∧ b ≥ 2) ∨ (m ≥ 6 ∧ b ≥ 1)
      · have := qp_ge_of_l4 m b h4; omega
      · by_cases h5 : m ≥ 9 ∨ b ≥ 6 ∨ (m ≥ 3 ∧ b ≥ 4) ∨ (m ≥ 6 ∧ b ≥ 2)
        · rw [qp_eq_of_l5 m b h5]; omega
        · rw [qp_eq_of_l1 m b h5 h4 h3 h2 h1]

/-- The scorer never exceeds 5. -/
theorem qp_le_five (m b : Int) : _calculate_turn_qp m b ≤ 5 := by
  unfold _calculate_turn_qp
  split_ifs <;> omega

/-- C9: the Cricket per-turn scorer is monotone in (marks, bulls) and its
value always lies in {0, 1, 2, 3, 4, 5}. -/
theorem claim_C9 (m b mh bh : Int) (h0m : 0 ≤ m) (h0b : 0 ≤ b)
    (hmono : m ≤ mh) (hbono : b ≤ bh) :
    _calculate_turn_qp m b ≤ _calculate_turn_qp mh bh ∧
    _calculate_turn_qp m b ∈ [0, 1, 2, 3, 4, 5] := by
  constructor
  · by_cases h5 : m ≥ 9 ∨ b ≥ 6 ∨ (m ≥ 3 ∧ b ≥ 4) ∨ (m ≥ 6 ∧ b ≥ 2)
    · rw [qp_eq_of_l5 m b h5, qp_eq_of_l5 mh bh (by omega)]
    · by_cases h4 : m ≥ 8 ∨ b ≥ 5 ∨ (m ≥ 2 ∧ b ≥ 4) ∨ (m ≥ 3 ∧ b ≥ 3)
          ∨ (m ≥ 5 ∧ b ≥ 2) ∨ (m ≥ 6 ∧ b ≥ 1)
      · rw [qp_eq_of_l4 m b h5 h4]
        exact qp_ge_of_l4 mh bh (by omega)
      · by_cases h3 : m ≥ 7 ∨ b ≥ 4 ∨ (m ≥ 1 ∧ b ≥ 4) ∨ (m ≥ 2 ∧ b ≥ 3)
            ∨ (m ≥ 4 ∧ b ≥ 2) ∨ (m ≥ 5 ∧ b ≥ 1)
        · rw [qp_eq_of_l3 m b h5 h4 h3]
          exact qp_ge_of_l3 mh bh (by omega)
        · by_cases h2 : m ≥ 6 ∨ b ≥ 3 ∨ (m ≥ 1 ∧ b ≥ 3) ∨ (m ≥ 3 ∧ b ≥ 2)
              ∨ (m ≥ 4 ∧ b ≥ 1)
          · rw [qp_eq_of_l2 m b h5 h4 h3 h2]
            exact qp_ge_of_l2 mh bh (by omega)
          · by_cases h1 : m ≥ 5 ∨ (m ≥ 3 ∧ b ≥ 1) ∨ (m ≥ 2 ∧ b ≥ 2)
            · rw [qp_eq_of_l1 m b h5 h4 h3 h2 h1]
              exact qp_ge_of_l1 mh bh (by omega)
            · rw [qp_eq_of_l0 m b h5 h4 h3 h2 h1]
              exact Nat.zero_le _
  · have hle := qp_le_five m b
    simp only [List.mem_cons, List.not_mem_nil, or_false]
    omega

/-- Witness for C9 at (3, 2) ≤ (5, 4). -/
theorem claim_C9_witness :
    _calculate_turn_qp 3 2 ≤ _calculate_turn_qp 5 4 ∧
    _calculate_turn_qp 3 2 ∈ [0, 1, 2, 3, 4, 5] :=
  claim_C9 3 2 5 4 (by decide) (by decide) (by decide) (by decide)

/-- C5 counterexample: the parser maps "T20,S19,DB" to (4, 2) — T20 is 3
marks and S19 is 1 mark — so the claimed value (5, 2) is wrong. -/
theorem claim_C5_counterexample :
    _parse_cricket_turn "T20,S19,DB" = (4, 2) ∧
    _parse_cricket_turn "T20,S19,DB" ≠ (5, 2) := by
  constructor
  · decide
  · decide

/-- C5 amended: parse("T20,S19,DB") = (marks 4, bulls 2); each scoring
token is worth marks per its ring prefix (S=1, D=2, T=3 on a cricket
number 15-20) and DB is worth 2 bulls. -/
theorem claim_C5_amended (n : Nat) (h1 : 15 ≤ n) (h2 : n ≤ 20) :
    _parse_cricket_turn "T20,S19,DB" = (4, 2) ∧
    _parse_cricket_turn ("S" ++ toString n) = (1, 0) ∧
    _parse_cricket_turn ("D" ++ toString n) = (2, 0) ∧
    _parse_cricket_turn ("T" ++ toString n) = (3, 0) ∧
    _parse_cricket_turn "DB" = (0, 2) := by
  interval_cases n <;>
    exact ⟨by decide, by decide, by decide, by decide, by decide⟩

/-- Witness for the amended C5 at n = 20. -/
theorem claim_C5_amended_witness :
    _parse_cricket_turn "T20,S19,DB" = (4, 2) ∧
    _parse_cricket_turn ("S" ++ toString 20) = (1, 0) ∧
    _parse_cricket_turn ("D" ++ toString 20) = (2, 0) ∧
    _parse_cricket_turn ("T" ++ toString 20) = (3, 0) ∧
    _parse_cricket_turn "DB" = (0, 2) :=
  claim_C5_amended 20 (by decide) (by decide)

/-- C10: a token whose first character is none of S, D, T, B contributes
(0, 0) — in particular a bare cricket number like "20" or "20x2" adds no
marks and no bulls. -/
theorem claim_C10 (dart : List Char) (c : Char) (hd : dart.head? = some c)
    (hS : c ≠ 'S') (hD : c ≠ 'D') (hT : c ≠ 'T') (hB : c ≠ 'B') :
    dartContribution dart = (0, 0) ∧
    _parse_cricket_turn "20" = (0, 0) ∧
    _parse_cricket_turn "20x2" = (0, 0) := by
  refine ⟨?_, by decide, by decide⟩
  cases dart with
  | nil => simp at hd
  | cons a l =>
    have ha : a = c := by simpa using hd
    subst ha
    have eS : ('S' == a) = false := beq_eq_false_iff_ne.mpr (Ne.symm hS)
    have eD : ('D' == a) = false := beq_eq_false_iff_ne.mpr (Ne.symm hD)
    have eT : ('T' == a) = false := beq_eq_false_iff_ne.mpr (Ne.symm hT)
    have eB : ('B' == a) = false := beq_eq_false_iff_ne.mpr (Ne.symm hB)
    unfold dartContribution
    simp only [listStartsWith, eS, eD, eT, eB, Bool.false_and, if_false,
      Bool.false_eq_true]
    split <;> rfl

/-- Witness for C10 at the token "20". -/
theorem claim_C10_witness :
    dartContribution ['2', '0'] = (0, 0) ∧
    _parse_cricket_turn "20" = (0, 0) ∧
    _parse_cricket_turn "20x2" = (0, 0) :=
  claim_C10 ['2', '0'] '2' rfl (by decide) (by decide) (by decide) (by decide)

/-- C4 counterexample: with totalWins 0, gamesPlayed 0, totalQP 1,
legsPlayed 1, the code's rating is 0 while the claim's formula (QP term
still awarded when gamesPlayed = 0 but legsPlayed > 0) demands 1. -/
theorem claim_C4_counterexample :
    playerRating 0 0 1 1 = 0 ∧ ratingSpecFormula 0 0 1 1 = 1 ∧
    playerRating 0 0 1 1 ≠ ratingSpecFormula 0 0 1 1 := by
  refine ⟨by norm_num [playerRating], by norm_num [ratingSpecFormula], ?_⟩
  norm_num [playerRating, ratingSpecFormula]

/-- C4 amended: the rating equals the two-term formula (each term 0 when
its own denominator is 0) whenever gamesPlayed = 0 forces legsPlayed = 0,
which holds for every aggregated player; when gamesPlayed = 0 the code
emits rating 0 regardless of the QP term. The worked example
rating(19, 39, 108, 93) ≈ 2.1357 (±0.0001) holds. -/
theorem claim_C4_amended (tw gp qp lp : Nat) (h : gp = 0 → lp = 0) :
    playerRating tw gp qp lp = ratingSpecFormula tw gp qp lp ∧
    |playerRating 19 39 108 93 - 21357 / 10000| ≤ 1 / 10000 := by
  constructor
  · unfold playerRating ratingSpecFormula
    rcases Nat.eq_zero_or_pos gp with hgp | hgp
    · subst hgp
      rw [if_neg (lt_irrefl 0), if_pos rfl, h rfl]
      norm_num
    · rw [if_pos hgp, if_neg (Nat.pos_iff_ne_zero.mp hgp)]
      rcases Nat.eq_zero_or_pos lp with hlp | hlp
      · subst hlp
        norm_num
      · rw [if_neg (Nat.pos_iff_ne_zero.mp hlp)]
  · have hv : playerRating 19 39 108 93 = 2582 / 1209 := by
      norm_num [playerRating]
    rw [hv, abs_le]
    constructor <;> norm_num

/-- Witness for the amended C4 at the spec's worked example. -/
theorem claim_C4_amended_witness :
    playerRating 19 39 108 93 = ratingSpecFormula 19 39 108 93 ∧
    |playerRating 19 39 108 93 - 21357 / 10000| ≤ 1 / 10000 :=
  claim_C4_amended 19 39 108 93 (by decide)

/-- C6: a 501 component score that falls outside every bracket of its
ladder — below the lowest bracket, above the top bracket, or in a
fractional gap between brackets — earns 0 from that ladder, both in the
standalone scorer `calculate_501_qp` and in the CSV aggregation path
`_calculate_501_qps_from_csv`; the above-top-bracket cases (high turn
above 180, checkout above 170) are instances. -/
theorem claim_C6 (t c : Int) (h d : ℚ) (pfv url w : String) (sn : Nat)
    (ht : ¬((95 ≤ t ∧ t ≤ 115) ∨ (116 ≤ t ∧ t ≤ 131) ∨ (132 ≤ t ∧ t ≤ 147)
      ∨ (148 ≤ t ∧ t ≤ 163) ∨ (164 ≤ t ∧ t ≤ 180)))
    (hc : ¬((61 ≤ c ∧ c ≤ 84) ∨ (85 ≤ c ∧ c ≤ 106) ∨ (107 ≤ c ∧ c ≤ 128)
      ∨ (129 ≤ c ∧ c ≤ 150) ∨ (151 ≤ c ∧ c ≤ 170)))
    (hh : ¬((95 ≤ h ∧ h ≤ 115) ∨ (116 ≤ h ∧ h ≤ 131) ∨ (132 ≤ h ∧ h ≤ 147)
      ∨ (148 ≤ h ∧ h ≤ 163) ∨ (164 ≤ h ∧ h ≤ 180)))
    (hdo : ¬((61 ≤ d ∧ d ≤ 84) ∨ (85 ≤ d ∧ d ≤ 106) ∨ (107 ≤ d ∧ d ≤ 128)
      ∨ (129 ≤ d ∧ d ≤ 150) ∨ (151 ≤ d ∧ d ≤ 170))) :
    total501Points t = 0 ∧
    checkout501Points (some c) = 0 ∧
    calculate_501_qp t (some c) = 0 ∧
    calculate_501_qp t none = 0 ∧
    csvHiTurnQP h = 0 ∧
    csvCheckoutQP d = 0 ∧
    _calculate_501_qps_from_csv [⟨"501 SIDO", pfv, url, sn, w, some h, some d⟩] = 0 := by
  have e1 : total501Points t = 0 := by
    unfold total501Points
    split_ifs <;> omega
  have e2 : checkout501Points (some c) = 0 := by
    simp only [checkout501Points]
    split_ifs <;> omega
  have e3 : csvHiTurnQP h = 0 := by
    unfold csvHiTurnQP
    split_ifs with x1 x2 x3 x4 x5
    · exact absurd (Or.inr (Or.inr (Or.inr (Or.inr x1)))) hh
    · exact absurd (Or.inr (Or.inr (Or.inr (Or.inl x2)))) hh
    · exact absurd (Or.inr (Or.inr (Or.inl x3))) hh
    · exact absurd (Or.inr (Or.inl x4)) hh
    · exact absurd (Or.inl x5) hh
    · rfl
  have e4 : csvCheckoutQP d = 0 := by
    unfold csvCheckoutQP
    split_ifs with x1 x2 x3 x4 x5
    · exact absurd (Or.inr (Or.inr (Or.inr (Or.inr x1)))) hdo
    · exact absurd (Or.inr (Or.inr (Or.inr (Or.inl x2)))) hdo
    · exact absurd (Or.inr (Or.inr (Or.inl x3))) hdo
    · exact absurd (Or.inr (Or.inl x4)) hdo
    · exact absurd (Or.inl x5) hdo
    · rfl
  refine ⟨e1, e2, ?_, ?_, e3, e4, ?_⟩
  · unfold calculate_501_qp
    rw [e1, e2]
  · unfold calculate_501_qp
    rw [e1]
    rfl
  · simp [_calculate_501_qps_from_csv, csvLegQP, e3, e4]

/-- Witness for C6 at the above-top-bracket instances: high turn 181 (int)
and 181.5 (csv float path), checkout 171 (int) and 170.5 (csv). -/
theorem claim_C6_witness :
    total501Points 181 = 0 ∧
    checkout501Points (some 171) = 0 ∧
    calculate_501_qp 181 (some 171) = 0 ∧
    calculate_501_qp 181 none = 0 ∧
    csvHiTurnQP (363 / 2) = 0 ∧
    csvCheckoutQP (341 / 2) = 0 ∧
    _calculate_501_qps_from_csv
      [⟨"501 SIDO", "S", "m1", 1, "W", some (363 / 2), some (341 / 2)⟩] = 0 :=
  claim_C6 181 171 (363 / 2) (341 / 2) "S" "m1" "W" 1
    (by decide) (by decide) (by norm_num) (by norm_num)

/-- Splitting a sum over a duplicate-free list at one of its members. -/
theorem sum_map_split_of_mem {α : Type} [DecidableEq α] (f : α → Nat) :
    ∀ (l : List α), l.Nodup → ∀ k, k ∈ l →
      (l.map f).sum = f k + ((l.filter (fun j => j ≠ k)).map f).sum := by
  intro l
  induction l with
  | nil =>
    intro _ k hk
    simp at hk
  | cons a t ih =>
    intro hnd k hk
    rw [List.nodup_cons] at hnd
    obtain ⟨hat, hnd⟩ := hnd
    rcases List.mem_cons.mp hk with hak | hkt
    · subst hak
      have hfilter : List.filter (fun j => decide (j ≠ k)) (k :: t) = t := by
        rw [List.filter_cons_of_neg (by simp)]
        exact List.filter_eq_self.mpr
          (fun j hj => by simpa using ne_of_mem_of_not_mem hj hat)
      rw [hfilter, List.map_cons, List.sum_cons]
    · have hka : ¬(a = k) := fun hx => hat (hx ▸ hkt)
      rw [List.map_cons, List.sum_cons, ih hnd k hkt]
      have hcons : (a :: t).filter (fun j => decide (j ≠ k))
          = a :: t.filter (fun j => decide (j ≠ k)) := by
        simp [List.filter_cons, hka]
      rw [hcons]
      simp only [List.map_cons, List.sum_cons]
      omega

/-- C3: within each (match, set) group of a (game type, format) slice, the
grouped Game counts as a win exactly when the player's legs-won strictly
exceed legs-lost, as a loss exactly when strictly fewer, and a tied group
contributes to neither the wins counter nor the losses counter (its term
drops from both sums). -/
theorem claim_C3 (rows : List LegRow) (gt pf : String) (k : String × Nat)
    (hk : k ∈ gameKeys (filteredRows rows gt pf)) :
    (gameWinContribution (rowsForKey (filteredRows rows gt pf) k) = 1 ↔
      legsLostIn (rowsForKey (filteredRows rows gt pf) k) <
        legsWonIn (rowsForKey (filteredRows rows gt pf) k)) ∧
    (gameLossContribution (rowsForKey (filteredRows rows gt pf) k) = 1 ↔
      legsWonIn (rowsForKey (filteredRows rows gt pf) k) <
        legsLostIn (rowsForKey (filteredRows rows gt pf) k)) ∧
    (legsWonIn (rowsForKey (filteredRows rows gt pf) k) =
        legsLostIn (rowsForKey (filteredRows rows gt pf) k) →
      gameWinContribution (rowsForKey (filteredRows rows gt pf) k) = 0 ∧
      gameLossContribution (rowsForKey (filteredRows rows gt pf) k) = 0 ∧
      disciplineWins rows gt pf =
        (((gameKeys (filteredRows rows gt pf)).filter (fun j => j ≠ k)).map
          (fun j => gameWinContribution (rowsForKey (filteredRows rows gt pf) j))).sum ∧
      disciplineLosses rows gt pf =
        (((gameKeys (filteredRows rows gt pf)).filter (fun j => j ≠ k)).map
          (fun j => gameLossContribution (rowsForKey (filteredRows rows gt pf) j))).sum) := by
  refine ⟨?_, ?_, ?_⟩
  · unfold gameWinContribution
    split_ifs with hw
    · simp [hw]
    · simp [hw]
  · unfold gameLossContribution
    split_ifs with hl
    · simp [hl]
    · simp [hl]
  · intro htie
    have hw0 : gameWinContribution (rowsForKey (filteredRows rows gt pf) k) = 0 := by
      unfold gameWinContribution
      rw [if_neg (by omega)]
    have hl0 : gameLossContribution (rowsForKey (filteredRows rows gt pf) k) = 0 := by
      unfold gameLossContribution
      rw [if_neg (by omega)]
    have hnd : (gameKeys (filteredRows rows gt pf)).Nodup := List.nodup_dedup _
    refine ⟨hw0, hl0, ?_, ?_⟩
    · unfold disciplineWins
      rw [sum_map_split_of_mem _ _ hnd k hk, hw0, Nat.zero_add]
    · unfold disciplineLosses
      rw [sum_map_split_of_mem _ _ hnd k hk, hl0, Nat.zero_add]

/-- Witness for C3: one group with one won and one lost leg is a tie and
contributes to neither counter. -/
theorem claim_C3_witness :
    (gameWinContribution (rowsForKey (filteredRows
        [⟨"Cricket", "S", "m1", 1, "W", none, none⟩,
         ⟨"Cricket", "S", "m1", 1, "L", none, none⟩] "Cricket" "S") ("m1", 1)) = 1 ↔
      legsLostIn (rowsForKey (filteredRows
        [⟨"Cricket", "S", "m1", 1, "W", none, none⟩,
         ⟨"Cricket", "S", "m1", 1, "L", none, none⟩] "Cricket" "S") ("m1", 1)) <
        legsWonIn (rowsForKey (filteredRows
        [⟨"Cricket", "S", "m1", 1, "W", none, none⟩,
         ⟨"Cricket", "S", "m1", 1, "L", none, none⟩] "Cricket" "S") ("m1", 1))) ∧
    (gameLossContribution (rowsForKey (filteredRows
        [⟨"Cricket", "S", "m1", 1, "W", none, none⟩,
         ⟨"Cricket", "S", "m1", 1, "L", none, none⟩] "Cricket" "S") ("m1", 1)) = 1 ↔
      legsWonIn (rowsForKey (filteredRows
        [⟨"Cricket", "S", "m1", 1, "W", none, none⟩,
         ⟨"Cricket", "S", "m1", 1, "L", none, none⟩] "Cricket" "S") ("m1", 1)) <
        legsLostIn (rowsForKey (filteredRows
        [⟨"Cricket", "S", "m1", 1, "W", none, none⟩,
         ⟨"Cricket", "S", "m1", 1, "L", none, none⟩] "Cricket" "S") ("m1", 1))) ∧
    (legsWonIn (rowsForKey (filteredRows
        [⟨"Cricket", "S", "m1", 1, "W", none, none⟩,
         ⟨"Cricket", "S", "m1", 1, "L", none, none⟩] "Cricket" "S") ("m1", 1)) =
        legsLostIn (rowsForKey (filteredRows
        [⟨"Cricket", "S", "m1", 1, "W", none, none⟩,
         ⟨"Cricket", "S", "m1", 1, "L", none, none⟩] "Cricket" "S") ("m1", 1)) →
      gameWinContribution (rowsForKey (filteredRows
        [⟨"Cricket", "S", "m1", 1, "W", none, none⟩,
         ⟨"Cricket", "S", "m1", 1, "L", none, none⟩] "Cricket" "S") ("m1", 1)) = 0 ∧
      gameLossContribution (rowsForKey (filteredRows
        [⟨"Cricket", "S", "m1", 1, "W", none, none⟩,
         ⟨"Cricket", "S", "m1", 1, "L", none, none⟩] "Cricket" "S") ("m1", 1)) = 0 ∧
      disciplineWins
        [⟨"Cricket", "S", "m1", 1, "W", none, none⟩,
         ⟨"Cricket", "S", "m1", 1, "L", none, none⟩] "Cricket" "S" =
        (((gameKeys (filteredRows
          [⟨"Cricket", "S", "m1", 1, "W", none, none⟩,
           ⟨"Cricket", "S", "m1", 1, "L", none, none⟩] "Cricket" "S")).filter
            (fun j => j ≠ ("m1", 1))).map
          (fun j => gameWinContribution (rowsForKey (filteredRows
            [⟨"Cricket", "S", "m1", 1, "W", none, none⟩,
             ⟨"Cricket", "S", "m1", 1, "L", none, none⟩] "Cricket" "S") j))).sum ∧
      disciplineLosses
        [⟨"Cricket", "S", "m1", 1, "W", none, none⟩,
         ⟨"Cricket", "S", "m1", 1, "L", none, none⟩] "Cricket" "S" =
        (((gameKeys (filteredRows
          [⟨"Cricket", "S", "m1", 1, "W", none, none⟩,
           ⟨"Cricket", "S", "m1", 1, "L", none, none⟩] "Cricket" "S")).filter
            (fun j => j ≠ ("m1", 1))).map
          (fun j => gameLossContribution (rowsForKey (filteredRows
            [⟨"Cricket", "S", "m1", 1, "W", none, none⟩,
             ⟨"Cricket", "S", "m1", 1, "L", none, none⟩] "Cricket" "S") j))).sum) :=
  claim_C3
    [⟨"Cricket", "S", "m1", 1, "W", none, none⟩,
     ⟨"Cricket", "S", "m1", 1, "L", none, none⟩] "Cricket" "S" ("m1", 1)
    (by decide)

/-- Filtering out a key leaves nothing for that key to find. -/
theorem lookupEntry_filter_ne {δ : Type} (l : List (String × ℚ × δ)) (k : String) :
    lookupEntry (l.filter (fun e => e.1 != k)) k = none := by
  induction l with
  | nil => rfl
  | cons a t ih =>
    by_cases hak : a.1 = k
    · have : (a.1 != k) = false := by simp [hak]
      simp only [List.filter_cons, this, Bool.false_eq_true, if_false]
      exact ih
    · have h1 : (a.1 != k) = true := by simp [hak]
      have h2 : (a.1 == k) = false := by simp [hak]
      simp only [List.filter_cons, h1, if_true]
      simp only [lookupEntry, List.find?_cons, h2] at ih ⊢
      exact ih

/-- A freshly written entry is found with the write-time mtime. -/
theorem lookupEntry_cache_data {δ : Type} (s : CacheState δ) (k : String)
    (d : δ) (t0 : ℚ) :
    lookupEntry (_cache_data s k d t0).entries k = some (t0, d) := by
  simp [lookupEntry, _cache_data, List.find?_cons]

/-- A get on a store with no entry for the key misses without change. -/
theorem get_none_of_no_entry {δ : Type} (s : CacheState δ) (k : String)
    (now ttl : ℚ) (h : lookupEntry s.entries k = none) :
    _get_cached_data s k now ttl = (none, s) := by
  unfold _get_cached_data
  rw [h]

/-- C7: after put(k, d) at time t0, a get within the TTL returns d and
leaves the store unchanged; a get after the TTL has elapsed returns Miss,
removes the entry, and bumps the `expired` counter exactly once — a
repeated get finds nothing and leaves the counter alone. -/
theorem claim_C7 {δ : Type} (s : CacheState δ) (k : String) (d : δ)
    (t0 t1 t2 ttl : ℚ) (hhit : t1 - t0 ≤ ttl) (hexp : ttl < t2 - t0) :
    _get_cached_data (_cache_data s k d t0) k t1 ttl
      = (some d, _cache_data s k d t0) ∧
    (_get_cached_data (_cache_data s k d t0) k t2 ttl).1 = none ∧
    lookupEntry ((_get_cached_data (_cache_data s k d t0) k t2 ttl).2).entries k
      = none ∧
    ((_get_cached_data (_cache_data s k d t0) k t2 ttl).2).expired
      = s.expired + 1 ∧
    _get_cached_data ((_get_cached_data (_cache_data s k d t0) k t2 ttl).2) k t2 ttl
      = (none, (_get_cached_data (_cache_data s k d t0) k t2 ttl).2) := by
  have hl := lookupEntry_cache_data s k d t0
  have hres : _get_cached_data (_cache_data s k d t0) k t2 ttl
      = (none, { _cache_data s k d t0 with
          entries := (_cache_data s k d t0).entries.filter (fun e => e.1 != k),
          expired := (_cache_data s k d t0).expired + 1 }) := by
    unfold _get_cached_data
    rw [hl]
    simp only [if_pos hexp]
  refine ⟨?_, ?_, ?_, ?_, ?_⟩
  · unfold _get_cached_data
    rw [hl]
    simp only [if_neg (not_lt.mpr hhit)]
  · rw [hres]
  · rw [hres]
    exact lookupEntry_filter_ne _ k
  · rw [hres]
    rfl
  · rw [hres]
    exact get_none_of_no_entry _ k t2 ttl (lookupEntry_filter_ne _ k)

/-- Witness for C7: put at day 0, hit at day 1, expire at day 200 with a
150-day TTL. -/
theorem claim_C7_witness :
    _get_cached_data (_cache_data (CacheState.mk ([] : List (String × ℚ × Nat)) 0 0 0 0) "k" 7 0) "k" 1 150
      = (some 7, _cache_data (CacheState.mk ([] : List (String × ℚ × Nat)) 0 0 0 0) "k" 7 0) ∧
    (_get_cached_data (_cache_data (CacheState.mk ([] : List (String × ℚ × Nat)) 0 0 0 0) "k" 7 0) "k" 200 150).1 = none ∧
    lookupEntry ((_get_cached_data (_cache_data (CacheState.mk ([] : List (String × ℚ × Nat)) 0 0 0 0) "k" 7 0) "k" 200 150).2).entries "k" = none ∧
    ((_get_cached_data (_cache_data (CacheState.mk ([] : List (String × ℚ × Nat)) 0 0 0 0) "k" 7 0) "k" 200 150).2).expired
      = (CacheState.mk ([] : List (String × ℚ × Nat)) 0 0 0 0).expired + 1 ∧
    _get_cached_data ((_get_cached_data (_cache_data (CacheState.mk ([] : List (String × ℚ × Nat)) 0 0 0 0) "k" 7 0) "k" 200 150).2) "k" 200 150
      = (none, (_get_cached_data (_cache_data (CacheState.mk ([] : List (String × ℚ × Nat)) 0 0 0 0) "k" 7 0) "k" 200 150).2) :=
  claim_C7 (CacheState.mk [] 0 0 0 0) "k" 7 0 1 200 150
    (by norm_num) (by norm_num)

/-- A cache read never changes the new_fetches counter. -/
theorem get_cached_new_fetches {δ : Type} (s : CacheState δ) (k : String)
    (now ttl : ℚ) :
    ((_get_cached_data s k now ttl).2).new_fetches = s.new_fetches := by
  unfold _get_cached_data
  split
  · rfl
  · split
    · rfl
    · rfl

/-- C8: an invalid locator makes fetch return Unavailable with the state
completely untouched (no cache interaction, no counters); on a valid
locator with a cache miss, a transport failure or a failed payload
extraction returns Unavailable and writes nothing to the cache (the
entries are exactly those left by the cache read, and new_fetches is not
incremented). -/
theorem claim_C8 {δ : Type} (keyFn : String → String)
    (findDataPage : String → Option String) (unescape : String → String)
    (parseJson : String → Option (List (String × δ)))
    (u : UrlParts) (response : Option String) (now ttl : ℚ)
    (st : CacheState δ) :
    (_is_valid_dartconnect_url u = false →
      fetch_game_data keyFn findDataPage unescape parseJson u response now ttl st
        = (none, st)) ∧
    (_is_valid_dartconnect_url u = true →
      (_get_cached_data st (keyFn u.raw) now ttl).1 = none →
      response = none →
        (fetch_game_data keyFn findDataPage unescape parseJson u response now ttl st).1
          = none ∧
        ((fetch_game_data keyFn findDataPage unescape parseJson u response now ttl st).2).entries
          = ((_get_cached_data st (keyFn u.raw) now ttl).2).entries ∧
        ((fetch_game_data keyFn findDataPage unescape parseJson u response now ttl st).2).new_fetches
          = st.new_fetches) ∧
    (_is_valid_dartconnect_url u = true →
      (_get_cached_data st (keyFn u.raw) now ttl).1 = none →
      ∀ htmlText, response = some htmlText →
        _extract_game_data_from_html findDataPage unescape parseJson htmlText = none →
        (fetch_game_data keyFn findDataPage unescape parseJson u response now ttl st).1
          = none ∧
        ((fetch_game_data keyFn findDataPage unescape parseJson u response now ttl st).2).entries
          = ((_get_cached_data st (keyFn u.raw) now ttl).2).entries ∧
        ((fetch_game_data keyFn findDataPage unescape parseJson u response now ttl st).2).new_fetches
          = st.new_fetches) := by
  refine ⟨?_, ?_, ?_⟩
  · intro hval
    simp [fetch_game_data, hval]
  · intro hval hmiss hresp
    subst hresp
    have hnf := get_cached_new_fetches st (keyFn u.raw) now ttl
    rcases hget : _get_cached_data st (keyFn u.raw) now ttl with ⟨r, st1⟩
    rw [hget] at hmiss hnf
    simp only at hmiss hnf
    subst hmiss
    refine ⟨?_, ?_, ?_⟩ <;> simp [fetch_game_data, hval, hget, hnf]
  · intro hval hmiss htmlText hresp hext
    subst hresp
    have hnf := get_cached_new_fetches st (keyFn u.raw) now ttl
    rcases hget : _get_cached_data st (keyFn u.raw) now ttl with ⟨r, st1⟩
    rw [hget] at hmiss hnf
    simp only at hmiss hnf
    subst hmiss
    refine ⟨?_, ?_, ?_⟩ <;> simp [fetch_game_data, hval, hget, hext, hnf]

/-- Witness for C8: a locator with the wrong host is rejected untouched,
and a valid locator whose GET fails transports nothing into the cache. -/
theorem claim_C8_witness :
    fetch_game_data (fun a => a) (fun _ => none) (fun a => a)
      (fun _ => (none : Option (List (String × Nat))))
      (UrlParts.mk "u" "example.com" "/x") none 0 150
      (CacheState.mk [] 0 0 0 0)
      = (none, CacheState.mk [] 0 0 0 0) ∧
    ((fetch_game_data (fun a => a) (fun _ => none) (fun a => a)
      (fun _ => (none : Option (List (String × Nat))))
      (UrlParts.mk "r" "recap.dartconnect.com" "/games/abc") none 0 150
      (CacheState.mk [] 0 0 0 0)).1 = none ∧
    ((fetch_game_data (fun a => a) (fun _ => none) (fun a => a)
      (fun _ => (none : Option (List (String × Nat))))
      (UrlParts.mk "r" "recap.dartconnect.com" "/games/abc") none 0 150
      (CacheState.mk [] 0 0 0 0)).2).entries
      = ((_get_cached_data (CacheState.mk ([] : List (String × ℚ × Nat)) 0 0 0 0) "r" 0 150).2).entries ∧
    ((fetch_game_data (fun a => a) (fun _ => none) (fun a => a)
      (fun _ => (none : Option (List (String × Nat))))
      (UrlParts.mk "r" "recap.dartconnect.com" "/games/abc") none 0 150
      (CacheState.mk [] 0 0 0 0)).2).new_fetches
      = (CacheState.mk ([] : List (String × ℚ × Nat)) 0 0 0 0).new_fetches) :=
  ⟨(claim_C8 (fun a => a) (fun _ => none) (fun a => a)
      (fun _ => (none : Option (List (String × Nat))))
      (UrlParts.mk "u" "example.com" "/x") none 0 150
      (CacheState.mk [] 0 0 0 0)).1 (by decide),
   (claim_C8 (fun a => a) (fun _ => none) (fun a => a)
      (fun _ => (none : Option (List (String × Nat))))
      (UrlParts.mk "r" "recap.dartconnect.com" "/games/abc") none 0 150
      (CacheState.mk [] 0 0 0 0)).2.1 (by decide) rfl rfl⟩

end DartConnect
